import Mathlib

/-!
Verification development for the node fleet manager and archive client of
this repository.

The Rust sources embedded here are:
* `sn_node_manager/src/add_services/mod.rs` — the `add` provisioning
  operation (namespace `AddServices`);
* `node-launchpad/src/components/status.rs` — the `Status` presentation
  component and its `update` state machine (namespace `Launchpad`);
* `autonomi/src/client/files/archive.rs` — `PrivateArchive` and its
  operations (namespace `Archive`).

Modelling conventions: machine integers are `Nat` (the `u16` node counter
and `u64` timestamps never reach their bounds in the claims considered);
filesystem paths are lists of components; fallible Rust functions return
`Except`/`Option`; external side effects (ports requested, directories
created, installs attempted, registry saves) are recorded in an explicit
effect trace so that statements about "no side effects" and "persisted"
are expressible.
-/

namespace SafeNet

/-- Service lifecycle status, from `sn_service_management::ServiceStatus`
(declared outside `src/`; the four variants are fixed by their uses in
`add_services/mod.rs` and `status.rs` and by spec §3.2). -/
inductive ServiceStatus where
  | Added
  | Running
  | Stopped
  | Removed
deriving DecidableEq, Repr

/-- An IPv4 address as four octets (`std::net::Ipv4Addr`). -/
structure Ipv4Addr where
  o1 : Nat
  o2 : Nat
  o3 : Nat
  o4 : Nat
deriving DecidableEq, Repr

/-- `127.0.0.1`, the default RPC bind address in `add`. -/
def localhost : Ipv4Addr := ⟨127, 0, 0, 1⟩

/-- A socket address: IPv4 address plus port (`std::net::SocketAddr`,
only the `V4` form is constructed by the embedded code). -/
structure SocketAddr where
  ip : Ipv4Addr
  port : Nat
deriving DecidableEq, Repr

/-- A filesystem path, as its list of components (`std::path::PathBuf`). -/
abbrev FsPath := List String

/-- `PathBuf::join` of a single extra component. -/
def FsPath.join (p : FsPath) (c : String) : FsPath := p ++ [c]

/-- `Path::file_name`: the last component, if any. -/
def FsPath.fileName (p : FsPath) : Option String := p.getLast?

/-- One node service record, from `sn_service_management::NodeServiceData`
(declared outside `src/`; fields are exactly those written at the
construction site in `add_services/mod.rs` lines 147–163, matching spec
§3.2). -/
structure NodeServiceData where
  genesis : Bool
  «local» : Bool
  service_name : String
  user : String
  number : Nat
  rpc_socket_addr : SocketAddr
  version : String
  status : ServiceStatus
  listen_addr : Option String
  pid : Option Nat
  peer_id : Option String
  log_dir_path : FsPath
  data_dir_path : FsPath
  safenode_path : FsPath
  connected_peers : Option (List String)
deriving DecidableEq, Repr

/-- NAT reachability status (spec §3.1). -/
inductive NatStatus where
  | Public
  | Private
  | UnknownNat
deriving DecidableEq, Repr

/-- Modelled from the spec: `sn_service_management::NodeRegistry`
(declared outside `src/`), the persisted registry document of spec §3.1.
The optional faucet and daemon records are reduced to presence flags;
no operation embedded here reads their payload. -/
structure NodeRegistry where
  save_path : FsPath
  nodes : List NodeServiceData
  faucet : Option Unit
  daemon : Option Unit
  bootstrap_peers : List String
  environment_variables : Option (List (String × String))
  nat_status : Option NatStatus
deriving DecidableEq, Repr

end SafeNet

namespace AddServices

open SafeNet

/-- Modelled from the spec: `AddServiceOptions` of
`add_services/config.rs` (not in `src/`); the fields are exactly those
read by `add` in `add_services/mod.rs`. -/
structure AddServiceOptions where
  count : Option Nat
  genesis : Bool
  «local» : Bool
  node_port : Option Nat
  rpc_address : Option Ipv4Addr
  bootstrap_peers : List String
  env_variables : Option (List (String × String))
  safenode_bin_path : FsPath
  service_data_dir_path : FsPath
  service_log_dir_path : FsPath
  user : String
  version : String
deriving Repr

/-- The install context builder record, with the fields assigned in
`add_services/mod.rs` lines 122–134.  Its `build` step (in the missing
`config.rs`) only renders these fields into an OS service definition, so
the record itself stands for the install context handed to the
controller. -/
structure InstallNodeServiceCtxBuilder where
  bootstrap_peers : List String
  data_dir_path : FsPath
  env_variables : Option (List (String × String))
  genesis : Bool
  «local» : Bool
  log_dir_path : FsPath
  name : String
  node_port : Option Nat
  rpc_socket_addr : SocketAddr
  safenode_path : FsPath
  service_user : String
deriving Repr

/-- Oracle for the `ServiceControl` trait as used by `add`: the port
returned by `get_available_port` and the outcome of `install` for the
loop iteration handling node number `n` (each is called exactly once per
iteration).  `installResult n = none` means `Ok(())`; `some e` the error
rendered as `e`.  Port allocation, directory creation, binary copy and
registry saves are modelled as succeeding: the claims condition only on
precondition checks and on `install` outcomes. -/
structure ServiceControlModel where
  ports : Nat → Nat
  installResult : Nat → Option String

/-- One observable side effect of `add`, in occurrence order. -/
inductive AddEffect where
  | requestedPort (n : Nat)
  | createdDir (p : FsPath)
  | copiedBinary (src dst : FsPath)
  | installAttempt (ctx : InstallNodeServiceCtxBuilder)
  | savedRegistry (r : NodeRegistry)
  | removedFile (p : FsPath)

/-- The result of a call to `add`: the Rust return value, the registry it
mutated in place, the `added_service_data` and `failed_service_data`
summaries it reports, and the trace of side effects. -/
structure AddOutcome where
  result : Except String Unit
  registry : NodeRegistry
  added : List (String × FsPath × FsPath × FsPath × SocketAddr)
  failed : List (String × String)
  effects : List AddEffect

/-- State threaded through the provisioning loop of `add`: the registry
plus the `added_service_data` and `failed_service_data` vectors and the
effect trace. -/
structure LoopState where
  registry : NodeRegistry
  added : List (String × FsPath × FsPath × FsPath × SocketAddr)
  failed : List (String × String)
  effects : List AddEffect

/-- `format!("safenode{node_number}")` — the service name derived for
node number `n` (`add_services/mod.rs` line 110). -/
def serviceName (n : Nat) : String := "safenode" ++ toString n

/-- The RPC socket address for node number `n`: the requested RPC bind
address (default `127.0.0.1`) with the port the controller returned
(`add_services/mod.rs` lines 103–108). -/
def rpcSocketAddr (options : AddServiceOptions) (ctl : ServiceControlModel)
    (n : Nat) : SocketAddr :=
  match options.rpc_address with
  | some addr => ⟨addr, ctl.ports n⟩
  | none => ⟨localhost, ctl.ports n⟩

/-- The per-service data directory (`add_services/mod.rs` line 111). -/
def serviceDataDir (options : AddServiceOptions) (n : Nat) : FsPath :=
  options.service_data_dir_path.join (serviceName n)

/-- The installed binary path (`add_services/mod.rs` line 112). -/
def serviceSafenodePath (options : AddServiceOptions) (fileName : String)
    (n : Nat) : FsPath :=
  (serviceDataDir options n).join fileName

/-- The per-service log directory (`add_services/mod.rs` line 113). -/
def serviceLogDir (options : AddServiceOptions) (n : Nat) : FsPath :=
  options.service_log_dir_path.join (serviceName n)

/-- The install context built for node number `n`
(`add_services/mod.rs` lines 122–135). -/
def mkInstallCtx (options : AddServiceOptions) (ctl : ServiceControlModel)
    (fileName : String) (n : Nat) : InstallNodeServiceCtxBuilder :=
  { bootstrap_peers := options.bootstrap_peers
    data_dir_path := serviceDataDir options n
    env_variables := options.env_variables
    genesis := options.genesis
    «local» := options.«local»
    log_dir_path := serviceLogDir options n
    name := serviceName n
    node_port := options.node_port
    rpc_socket_addr := rpcSocketAddr options ctl n
    safenode_path := serviceSafenodePath options fileName n
    service_user := options.user }

/-- The `NodeServiceData` record pushed on a successful install
(`add_services/mod.rs` lines 147–163). -/
def mkNode (options : AddServiceOptions) (ctl : ServiceControlModel)
    (fileName : String) (n : Nat) : NodeServiceData :=
  { genesis := options.genesis
    «local» := options.«local»
    service_name := serviceName n
    user := options.user
    number := n
    rpc_socket_addr := rpcSocketAddr options ctl n
    version := options.version
    status := ServiceStatus.Added
    listen_addr := none
    pid := none
    peer_id := none
    log_dir_path := serviceLogDir options n
    data_dir_path := serviceDataDir options n
    safenode_path := serviceSafenodePath options fileName n
    connected_peers := none }

/-- The `added_service_data` entry pushed on a successful install
(`add_services/mod.rs` lines 139–145). -/
def addedEntry (options : AddServiceOptions) (ctl : ServiceControlModel)
    (fileName : String) (n : Nat) :
    String × FsPath × FsPath × FsPath × SocketAddr :=
  (serviceName n, serviceSafenodePath options fileName n,
   serviceDataDir options n, serviceLogDir options n,
   rpcSocketAddr options ctl n)

/-- One iteration of the `while node_number <= target_node_count` loop of
`add` (`add_services/mod.rs` lines 102–174), for node number `n`. -/
def addIteration (options : AddServiceOptions) (ctl : ServiceControlModel)
    (fileName : String) (st : LoopState) (n : Nat) : LoopState :=
  let effects := st.effects ++
    [AddEffect.requestedPort n,
     AddEffect.createdDir (serviceDataDir options n),
     AddEffect.createdDir (serviceLogDir options n),
     AddEffect.copiedBinary options.safenode_bin_path (serviceSafenodePath options fileName n),
     AddEffect.installAttempt (mkInstallCtx options ctl fileName n)]
  match ctl.installResult n with
  | none =>
      let registry :=
        { st.registry with nodes := st.registry.nodes ++ [mkNode options ctl fileName n] }
      { registry := registry
        added := st.added ++ [addedEntry options ctl fileName n]
        failed := st.failed
        effects := effects ++ [AddEffect.savedRegistry registry] }
  | some e =>
      { registry := st.registry
        added := st.added
        failed := st.failed ++ [(serviceName n, e)]
        effects := effects }

/-- The provisioning loop of `add`, run over the list of node numbers
`current_node_count + 1 .. target_node_count`. -/
def addLoop (options : AddServiceOptions) (ctl : ServiceControlModel)
    (fileName : String) (st : LoopState) : List Nat → LoopState
  | [] => st
  | n :: rest => addLoop options ctl fileName (addIteration options ctl fileName st n) rest

/-- `Some(count)` with `count > 1`: the shape of the two count checks in
`add` (`if let Some(count) = options.count { if count > 1 { ... } }`). -/
def someCountGtOne : Option Nat → Bool
  | some c => 1 < c
  | none => false

/-- The "store the bootstrap peers and the provided env variable" block of
`add` (`add_services/mod.rs` lines 70–93): merge unseen bootstrap peers,
overwrite the environment variables when some were supplied, and save the
registry when either changed.  Returns the updated registry and the save
effect, if any. -/
def storeBootstrapPeersAndEnv (options : AddServiceOptions)
    (node_registry : NodeRegistry) : NodeRegistry × List AddEffect :=
  let new_bootstrap_peers :=
    options.bootstrap_peers.filter (fun p => !node_registry.bootstrap_peers.contains p)
  let registry1 :=
    if !new_bootstrap_peers.isEmpty then
      { node_registry with
          bootstrap_peers := node_registry.bootstrap_peers ++ new_bootstrap_peers }
    else node_registry
  let registry2 :=
    if options.env_variables.isSome then
      { registry1 with environment_variables := options.env_variables }
    else registry1
  if !new_bootstrap_peers.isEmpty || options.env_variables.isSome then
    (registry2, [AddEffect.savedRegistry registry2])
  else
    (registry2, [])

/-- `add` from `sn_node_manager/src/add_services/mod.rs` lines 35–202:
precondition checks, bootstrap-peer / environment-variable merge, the
provisioning loop, staging-binary removal, and the aggregate result. -/
def add (options : AddServiceOptions) (node_registry : NodeRegistry)
    (ctl : ServiceControlModel) : AddOutcome :=
  if options.genesis && someCountGtOne options.count then
    { result := .error "A genesis node can only be added as a single node"
      registry := node_registry, added := [], failed := [], effects := [] }
  else if options.genesis && node_registry.nodes.any (·.genesis) then
    { result := .error "A genesis node already exists"
      registry := node_registry, added := [], failed := [], effects := [] }
  else if someCountGtOne options.count && options.node_port.isSome then
    { result := .error "Custom node port can only be used when adding a single service"
      registry := node_registry, added := [], failed := [], effects := [] }
  else
    match options.safenode_bin_path.fileName with
    | none =>
        { result := .error "Could not get filename from the safenode download path"
          registry := node_registry, added := [], failed := [], effects := [] }
    | some safenode_file_name =>
        let merged := storeBootstrapPeersAndEnv options node_registry
        let current_node_count := merged.1.nodes.length
        let k := options.count.getD 1
        let st := addLoop options ctl safenode_file_name
          ⟨merged.1, [], [], merged.2⟩ (List.range' (current_node_count + 1) k)
        let effects := st.effects ++ [AddEffect.removedFile options.safenode_bin_path]
        if !st.failed.isEmpty then
          { result := .error "Failed to add one or more services"
            registry := st.registry, added := st.added, failed := st.failed
            effects := effects }
        else
          { result := .ok (), registry := st.registry, added := st.added
            failed := st.failed, effects := effects }

/-- The node numbers of a batch whose install succeeds under `ctl`. -/
def successNums (ctl : ServiceControlModel) (nums : List Nat) : List Nat :=
  nums.filter (fun n => (ctl.installResult n).isNone)

/-- The `(service name, error)` pairs recorded for the installs that fail
under `ctl`. -/
def failedEntries (ctl : ServiceControlModel) (nums : List Nat) :
    List (String × String) :=
  nums.filterMap (fun n => (ctl.installResult n).map (fun e => (serviceName n, e)))

/-- Apply a sequence of `add` calls, each operating on the registry the
previous call left behind (the registry is mutated in place by `add`,
whatever its result). -/
def addSeq : List (AddServiceOptions × ServiceControlModel) → NodeRegistry → NodeRegistry
  | [], reg => reg
  | (o, c) :: rest, reg => addSeq rest (add o reg c).registry

/-- An empty registry, for concrete instances. -/
def emptyRegistry : NodeRegistry :=
  { save_path := ["node_registry.json"], nodes := [], faucet := none
    daemon := none, bootstrap_peers := [], environment_variables := none
    nat_status := none }

/-- Baseline options for concrete instances: a single non-genesis node,
defaults everywhere. -/
def baseOptions : AddServiceOptions :=
  { count := none, genesis := false, «local» := false, node_port := none
    rpc_address := none, bootstrap_peers := [], env_variables := none
    safenode_bin_path := ["tmp", "safenode"]
    service_data_dir_path := ["var", "safenode-manager", "services"]
    service_log_dir_path := ["var", "log", "safenode"]
    user := "safe", version := "0.96.4" }

/-- A controller whose every install succeeds. -/
def okCtl : ServiceControlModel :=
  { ports := fun n => 8080 + n, installResult := fun _ => none }

/-- A controller whose install for node number 1 fails and all others
succeed. -/
def failFirstCtl : ServiceControlModel :=
  { ports := fun n => 8080 + n
    installResult := fun n => if n = 1 then some "could not install" else none }

/-- A registry holding one genesis node, for the genesis-guard
instances. -/
def genesisRegistry : NodeRegistry :=
  { emptyRegistry with
      nodes := [{ mkNode baseOptions okCtl "safenode" 1 with genesis := true }] }

/-- Options requesting two nodes. -/
def countTwoOptions : AddServiceOptions := { baseOptions with count := some 2 }

/-- Options requesting two genesis nodes. -/
def genesisCountOptions : AddServiceOptions :=
  { baseOptions with genesis := true, count := some 2 }

/-- Options requesting three genesis nodes on a custom node port. -/
def genesisPortOptions : AddServiceOptions :=
  { baseOptions with genesis := true, count := some 3, node_port := some 12000 }

/-- Options requesting a single genesis node. -/
def genesisTrueOptions : AddServiceOptions := { baseOptions with genesis := true }

/-- Options requesting three nodes on a custom node port. -/
def portCountOptions : AddServiceOptions :=
  { baseOptions with count := some 3, node_port := some 12000 }

/-- Options requesting one node (count absent) on a custom node port. -/
def portOneOptions : AddServiceOptions := { baseOptions with node_port := some 12000 }

/-- The node numbers a call to `add` will try to provision:
`current_node_count + 1 .. current_node_count + count`. -/
def newNums (reg : NodeRegistry) (options : AddServiceOptions) : List Nat :=
  List.range' (reg.nodes.length + 1) (options.count.getD 1)

end AddServices

namespace Launchpad

open SafeNet

/-- `FIXED_INTERVAL` from `status.rs` line 55. -/
def FIXED_INTERVAL : Nat := 60000

/-- `MAX_ERRORS_WHILE_RUNNING_NAT_DETECTION` from `status.rs` line 58. -/
def MAX_ERRORS_WHILE_RUNNING_NAT_DETECTION : Nat := 3

/-- Modelled from the spec: the port range bounds `PORT_MIN` / `PORT_MAX`
of `node_mgmt.rs` (not in `src/`); spec §6 fixes the defaults. -/
def PORT_MIN : Nat := 49152

/-- Modelled from the spec: see `PORT_MIN`. -/
def PORT_MAX : Nat := 65535

/-- The advisory lock states of `status.rs` lines 117–123. -/
inductive LockRegistryState where
  | StartingNodes
  | StoppingNodes
  | ResettingNodes
  | UpdatingNodes
deriving DecidableEq, Repr

/-- Modelled from the spec: the connection-mode selector of
`connection_mode.rs` (not in `src/`); `status.rs` only compares it with
`Automatic`. -/
inductive ConnectionMode where
  | Automatic
  | HomeNetwork
  | UPnP
  | CustomPorts
deriving DecidableEq, Repr

/-- The scenes of `mode.rs` that `Status::update` inspects; every other
scene is collapsed into `OtherScene`. -/
inductive Scene where
  | StatusScene
  | StatusRewardsAddressPopUp
  | ManageNodesPopUp
  | OtherScene
deriving DecidableEq, Repr

/-- Input modes of `mode.rs` as returned by `Status::update`. -/
inductive InputMode where
  | Navigation
  | Entry
deriving DecidableEq, Repr

/-- The `MaintainNodesArgs` built by the `StartNodes` handler
(`status.rs` lines 635–647); the action-sender channel and the opaque
`PeersArgs` are omitted. -/
structure MaintainNodesArgs where
  antnode_path : Option FsPath
  connection_mode : ConnectionMode
  count : Nat
  data_dir_path : Option FsPath
  network_id : Option Nat
  owner : String
  port_range : Option (Nat × Nat)
  rewards_address : String
  run_nat_detection : Bool
deriving DecidableEq, Repr

/-- The `UpgradeNodesArgs` built by the `UpdateNodes` handler
(`status.rs` lines 714–726); the action-sender channel is omitted. -/
structure UpgradeNodesArgs where
  connection_timeout_s : Nat
  do_not_start : Bool
  custom_bin_path : Option FsPath
  force : Bool
  fixed_interval : Option Nat
  peer_ids : List String
  provided_env_variables : Option (List (String × String))
  service_names : List String
  url : Option String
  version : Option String
deriving DecidableEq, Repr

/-- Tasks sent to the node-management worker (`node_mgmt.rs`, not in
`src/`; the variants and payloads are those constructed in
`status.rs`). -/
inductive NodeManagementTask where
  | MaintainNodes (args : MaintainNodesArgs)
  | StopNodes (services : List String)
  | ResetNodes (start_nodes_after_reset : Bool)
  | UpgradeNodes (args : UpgradeNodesArgs)
deriving DecidableEq, Repr

/-- The `StatusActions` variants of `action.rs` handled by
`Status::update`. -/
inductive StatusActions where
  | NodesStatsObtained
  | StartNodesCompleted
  | StopNodesCompleted
  | UpdateNodesCompleted
  | ResetNodesCompleted (trigger_start_node : Bool)
  | SuccessfullyDetectedNatStatus
  | ErrorWhileRunningNatDetection
  | ErrorLoadingNodeRegistry (raw_error : String)
  | ErrorGettingNodeRegistryPath (raw_error : String)
  | ErrorScalingUpNodes (raw_error : String)
  | ErrorStoppingNodes (raw_error : String)
  | ErrorUpdatingNodes (raw_error : String)
  | ErrorResettingNodes (raw_error : String)
  | TriggerManageNodes
  | PreviousTableItem
  | NextTableItem
  | StartNodes
  | StopNodes
  | TriggerRewardsAddress
  | TriggerNodeLogs
deriving DecidableEq, Repr

/-- The `OptionsActions` variants of `action.rs` reaching
`Status::update`; variants it ignores are collapsed into
`OtherOption`. -/
inductive OptionsActions where
  | UpdateNodes
  | ResetNodes
  | OtherOption
deriving DecidableEq, Repr

/-- The `Action` variants of `action.rs` as matched by `Status::update`;
variants falling into its final `_ => {}` arm are collapsed into
`OtherAction`. -/
inductive Action where
  | Tick
  | SwitchScene (scene : Scene)
  | StoreNodesToStart (count : Nat)
  | StoreRewardsAddress (rewards_address : String)
  | StoreStorageDrive (drive_mountpoint : FsPath) (drive_name : String)
  | StoreConnectionMode (connection_mode : ConnectionMode)
  | StorePortRange (port_from port_to : Nat)
  | SetUpnpSupport
  | StatusActionsA (sa : StatusActions)
  | OptionsActionsA (oa : OptionsActions)
  | SwitchInputMode (mode : InputMode)
  | OtherAction
deriving DecidableEq, Repr

/-- Modelled from the spec: `get_launchpad_nodes_data_dir_path` of the
launchpad's `config.rs` (not in `src/`), which derives the nodes data
directory under the chosen drive mountpoint. -/
def getLaunchpadNodesDataDirPath (drive_mountpoint : FsPath) : FsPath :=
  drive_mountpoint ++ ["autonomi", "node"]

/-- The modelled fields of the `Status` component (`status.rs` lines
74–115).  Purely presentational state — the stats cache and its timer,
the items table with its spinners, the error popup, the UPnP badge and
the opaque `PeersArgs`/channel handles — is omitted; the handlers that
touch only those fields become no-ops on this model. -/
structure Status where
  active : Bool
  is_nat_status_determined : Bool
  error_while_running_nat_detection : Nat
  node_services : List NodeServiceData
  network_id : Option Nat
  nodes_to_start : Nat
  rewards_address : String
  lock_registry : Option LockRegistryState
  antnode_path : Option FsPath
  data_dir_path : FsPath
  connection_mode : ConnectionMode
  port_from : Option Nat
  port_to : Option Nat
deriving DecidableEq, Repr

/-- The environment a single `update` call runs in: the registry document
that `NodeRegistry::load` would read from disk.  Loads and the
action-sender lookup are modelled as succeeding; the claims concern
successful loads only. -/
structure Env where
  diskRegistry : NodeRegistry

/-- `Status::load_node_registry_and_update_states` (`status.rs` lines
326–340): records whether the NAT status is determined and keeps every
registry node whose status is not `Removed`. -/
def loadNodeRegistryAndUpdateStates (reg : NodeRegistry) (s : Status) : Status :=
  { s with
      is_nat_status_determined := reg.nat_status.isSome
      node_services := reg.nodes.filter (fun node => node.status != ServiceStatus.Removed) }

/-- `Status::should_we_run_nat_detection` (`status.rs` lines 342–347). -/
def shouldWeRunNatDetection (s : Status) : Bool :=
  s.connection_mode == ConnectionMode.Automatic
    && !s.is_nat_status_determined
    && decide (s.error_while_running_nat_detection < MAX_ERRORS_WHILE_RUNNING_NAT_DETECTION)

/-- `Status::get_running_nodes` (`status.rs` lines 349–360). -/
def getRunningNodes (s : Status) : List String :=
  s.node_services.filterMap (fun node =>
    if node.status = ServiceStatus.Running then some node.service_name else none)

/-- `Status::get_service_names_and_peer_ids` (`status.rs` lines
362–375). -/
def getServiceNamesAndPeerIds (s : Status) : List String × List String :=
  s.node_services.foldl
    (fun acc node =>
      match node.peer_id with
      | some peer_id => (acc.1 ++ [node.service_name], acc.2 ++ [peer_id])
      | none => acc)
    ([], [])

/-- What one call to `Status::update` produces: the new component state,
the tasks sent to the node-management worker (in order), and the action
returned to the app for re-dispatch (`Ok(Some(_))`). -/
structure UpdateOutcome where
  state : Status
  sent : List NodeManagementTask
  returned : Option Action

/-- `Status::update` (`status.rs` lines 401–755), restricted to the
modelled state.  `Tick`, `NodesStatsObtained`, the table-navigation and
log-opening actions, and `SetUpnpSupport` touch only omitted
presentational state and are no-ops here; the error-popup branches keep
their returned `SwitchInputMode(Entry)` action. -/
def update (s : Status) (env : Env) (a : Action) : UpdateOutcome :=
  match a with
  | .Tick => ⟨s, [], none⟩
  | .SwitchScene scene =>
      match scene with
      | .StatusScene | .StatusRewardsAddressPopUp =>
          ⟨{ s with active := true }, [], some (.SwitchInputMode .Navigation)⟩
      | .ManageNodesPopUp => ⟨{ s with active := true }, [], none⟩
      | .OtherScene => ⟨{ s with active := false }, [], none⟩
  | .StoreNodesToStart count =>
      let s := { s with nodes_to_start := count }
      if s.nodes_to_start = 0 then
        ⟨s, [], some (.StatusActionsA .StopNodes)⟩
      else
        ⟨s, [], some (.StatusActionsA .StartNodes)⟩
  | .StoreRewardsAddress rewards_address =>
      let has_changed := s.rewards_address != rewards_address
      let we_have_nodes := !s.node_services.isEmpty
      let s := { s with rewards_address := rewards_address }
      if we_have_nodes && has_changed then
        ⟨{ s with lock_registry := some .ResettingNodes },
         [.ResetNodes false], none⟩
      else
        ⟨s, [], none⟩
  | .StoreStorageDrive drive_mountpoint _drive_name =>
      ⟨{ s with
          lock_registry := some .ResettingNodes
          data_dir_path := getLaunchpadNodesDataDirPath drive_mountpoint },
       [.ResetNodes false], none⟩
  | .StoreConnectionMode connection_mode =>
      ⟨{ s with
          lock_registry := some .ResettingNodes
          connection_mode := connection_mode },
       [.ResetNodes false], none⟩
  | .StorePortRange port_from port_to =>
      ⟨{ s with
          lock_registry := some .ResettingNodes
          port_from := some port_from
          port_to := some port_to },
       [.ResetNodes false], none⟩
  | .SetUpnpSupport => ⟨s, [], none⟩
  | .StatusActionsA sa =>
      match sa with
      | .NodesStatsObtained => ⟨s, [], none⟩
      | .StartNodesCompleted | .StopNodesCompleted =>
          ⟨loadNodeRegistryAndUpdateStates env.diskRegistry
            { s with lock_registry := none }, [], none⟩
      | .UpdateNodesCompleted =>
          ⟨loadNodeRegistryAndUpdateStates env.diskRegistry
            { s with lock_registry := none }, [], none⟩
      | .ResetNodesCompleted trigger_start_node =>
          let s := loadNodeRegistryAndUpdateStates env.diskRegistry
            { s with lock_registry := none }
          if trigger_start_node then
            ⟨s, [], some (.StatusActionsA .StartNodes)⟩
          else
            ⟨s, [], none⟩
      | .SuccessfullyDetectedNatStatus =>
          ⟨{ s with is_nat_status_determined := true }, [], none⟩
      | .ErrorWhileRunningNatDetection =>
          ⟨{ s with error_while_running_nat_detection :=
              s.error_while_running_nat_detection + 1 }, [], none⟩
      | .ErrorLoadingNodeRegistry _ | .ErrorGettingNodeRegistryPath _
      | .ErrorScalingUpNodes _ | .ErrorStoppingNodes _
      | .ErrorUpdatingNodes _ | .ErrorResettingNodes _ =>
          ⟨s, [], some (.SwitchInputMode .Entry)⟩
      | .TriggerManageNodes =>
          ⟨s, [], some (.SwitchScene .ManageNodesPopUp)⟩
      | .PreviousTableItem | .NextTableItem => ⟨s, [], none⟩
      | .StartNodes =>
          if s.rewards_address = "" then
            ⟨s, [], some (.StatusActionsA .TriggerRewardsAddress)⟩
          else if s.nodes_to_start = 0 then
            ⟨s, [], some (.StatusActionsA .TriggerManageNodes)⟩
          else if s.lock_registry.isSome then
            ⟨s, [], none⟩
          else
            let s := { s with lock_registry := some .StartingNodes }
            let port_range := (s.port_from.getD PORT_MIN, s.port_to.getD PORT_MAX)
            let maintain_nodes_args : MaintainNodesArgs :=
              { antnode_path := s.antnode_path
                connection_mode := s.connection_mode
                count := s.nodes_to_start
                data_dir_path := some s.data_dir_path
                network_id := s.network_id
                owner := s.rewards_address
                port_range := some port_range
                rewards_address := s.rewards_address
                run_nat_detection := shouldWeRunNatDetection s }
            ⟨s, [.MaintainNodes maintain_nodes_args], none⟩
      | .StopNodes =>
          if s.lock_registry.isSome then
            ⟨s, [], none⟩
          else
            let running_nodes := getRunningNodes s
            ⟨{ s with lock_registry := some .StoppingNodes },
             [.StopNodes running_nodes], none⟩
      | .TriggerRewardsAddress =>
          if s.rewards_address = "" then
            ⟨s, [], some (.SwitchScene .StatusRewardsAddressPopUp)⟩
          else
            ⟨s, [], none⟩
      | .TriggerNodeLogs => ⟨s, [], none⟩
  | .OptionsActionsA oa =>
      match oa with
      | .UpdateNodes =>
          let s := loadNodeRegistryAndUpdateStates env.diskRegistry s
          if s.lock_registry.isSome then
            ⟨s, [], none⟩
          else
            let s := { s with lock_registry := some .UpdatingNodes }
            let names_peers := getServiceNamesAndPeerIds s
            let upgrade_nodes_args : UpgradeNodesArgs :=
              { connection_timeout_s := 5
                do_not_start := true
                custom_bin_path := none
                force := false
                fixed_interval := some FIXED_INTERVAL
                peer_ids := names_peers.2
                provided_env_variables := none
                service_names := names_peers.1
                url := none
                version := none }
            ⟨s, [.UpgradeNodes upgrade_nodes_args], none⟩
      | .ResetNodes =>
          if s.lock_registry.isSome then
            ⟨s, [], none⟩
          else
            ⟨{ s with lock_registry := some .ResettingNodes },
             [.ResetNodes false], none⟩
      | .OtherOption => ⟨s, [], none⟩
  | .SwitchInputMode _ => ⟨s, [], none⟩
  | .OtherAction => ⟨s, [], none⟩

/-- A baseline component state for concrete instances: rewards address
set, five nodes requested, no lock held. -/
def baseStatus : Status :=
  { active := true, is_nat_status_determined := false
    error_while_running_nat_detection := 0, node_services := []
    network_id := none, nodes_to_start := 5
    rewards_address := "0x1111", lock_registry := none
    antnode_path := none, data_dir_path := ["data"]
    connection_mode := ConnectionMode.Automatic
    port_from := none, port_to := none }

/-- An environment whose on-disk registry is empty. -/
def baseEnv : Env := ⟨AddServices.emptyRegistry⟩

/-- `baseStatus` with the advisory lock held. -/
def lockedStatus : Status :=
  { baseStatus with lock_registry := some LockRegistryState.StoppingNodes }

end Launchpad

namespace Archive

/-- A `PathBuf` key of the archive map, as its byte sequence (paths are
only compared and stored by `archive.rs`, never decomposed). -/
abbrev ArchPath := List Nat

/-- Modelled from the spec: `PrivateDataAccess` (`DataMapChunk`, declared
in `client/data` outside the embedded file): the opaque encrypted data
map of one file, carried around and compared but never inspected by
`archive.rs`. -/
structure PrivateDataAccess where
  datamap : List Nat
deriving DecidableEq, Repr

/-- `Metadata` from `archive.rs` lines 38–48; the four `u64` fields. -/
structure Metadata where
  uploaded : Nat
  created : Nat
  modified : Nat
  size : Nat
deriving DecidableEq, Repr

/-- `RenameError` from `archive.rs` lines 31–35. -/
inductive RenameError where
  | FileNotFound (p : ArchPath)
deriving DecidableEq, Repr

/-- `PrivateArchive` from `archive.rs` lines 69–72: a map from file path
to data map and metadata.  The Rust `HashMap` is modelled as an
association list; a `HashMap` never holds two entries with the same key,
which statements needing it take as the hypothesis that the key list has
no duplicates. -/
structure PrivateArchive where
  map : List (ArchPath × PrivateDataAccess × Metadata)
deriving DecidableEq, Repr

/-- `HashMap::get`-style lookup on the association list. -/
def mapLookup (k : ArchPath) : List (ArchPath × PrivateDataAccess × Metadata) →
    Option (PrivateDataAccess × Metadata)
  | [] => none
  | (k2, v) :: rest => if k2 = k then some v else mapLookup k rest

/-- `HashMap::remove`: take out the entry with key `k`, returning its
value and the remaining entries, or `none` when the key is absent. -/
def mapRemove (k : ArchPath) : List (ArchPath × PrivateDataAccess × Metadata) →
    Option ((PrivateDataAccess × Metadata) × List (ArchPath × PrivateDataAccess × Metadata))
  | [] => none
  | (k2, v) :: rest =>
      if k2 = k then some (v, rest)
      else
        match mapRemove k rest with
        | some (v2, rest2) => some (v2, (k2, v) :: rest2)
        | none => none

/-- `HashMap::insert`: replace the value of an existing entry with key
`k`, or append a new entry. -/
def mapInsert (k : ArchPath) (v : PrivateDataAccess × Metadata) :
    List (ArchPath × PrivateDataAccess × Metadata) →
    List (ArchPath × PrivateDataAccess × Metadata)
  | [] => [(k, v)]
  | (k2, v2) :: rest =>
      if k2 = k then (k, v) :: rest else (k2, v2) :: mapInsert k v rest

/-- `PrivateArchive::new` (`archive.rs` lines 77–81). -/
def PrivateArchive.new : PrivateArchive := ⟨[]⟩

/-- `PrivateArchive::rename_file` (`archive.rs` lines 85–98).  The
`SystemTime::now()` reading becomes the explicit argument `now`. -/
def PrivateArchive.rename_file (a : PrivateArchive) (old_path new_path : ArchPath)
    (now : Nat) : Except RenameError PrivateArchive :=
  match mapRemove old_path a.map with
  | none => .error (RenameError.FileNotFound old_path)
  | some ((data_addr, meta), rest) =>
      .ok ⟨mapInsert new_path (data_addr, { meta with modified := now }) rest⟩

/-- `PrivateArchive::add_file` (`archive.rs` lines 102–105). -/
def PrivateArchive.add_file (a : PrivateArchive) (path : ArchPath)
    (data_map : PrivateDataAccess) (meta : Metadata) : PrivateArchive :=
  ⟨mapInsert path (data_map, meta) a.map⟩

/-- `PrivateArchive::files` (`archive.rs` lines 108–113). -/
def PrivateArchive.files (a : PrivateArchive) : List (ArchPath × Metadata) :=
  a.map.map (fun e => (e.1, e.2.2))

/-- `PrivateArchive::addresses` (`archive.rs` lines 116–121). -/
def PrivateArchive.addresses (a : PrivateArchive) : List PrivateDataAccess :=
  a.map.map (fun e => e.2.1)

/-!
Modelled from the spec: the `rmp_serde` MessagePack codec used by
`PrivateArchive::into_bytes` / `from_bytes` (an external crate, not in
`src/`).  It is modelled as an executable self-delimiting binary
encoding: naturals in base-128 varint form, sequences length-prefixed —
the same shape MessagePack gives this type, and faithful to the codec
contract the round-trip claim relies on.
-/

/-- Base-128 varint encoding of a natural number: digits low-first, the
final digit below 128, every earlier digit offset by 128. -/
def encNat (n : Nat) : List Nat :=
  if n < 128 then [n]
  else (n % 128 + 128) :: encNat (n / 128)
decreasing_by
  exact Nat.div_lt_self (by omega) (by omega)

/-- Decode a base-128 varint from the front of a byte list. -/
def decNat : List Nat → Option (Nat × List Nat)
  | [] => none
  | b :: bs =>
      if b < 128 then some (b, bs)
      else
        match decNat bs with
        | some (m, rest) => some ((b - 128) + 128 * m, rest)
        | none => none

/-- Length-prefixed encoding of a sequence. -/
def encList (f : α → List Nat) (l : List α) : List Nat :=
  encNat l.length ++ (l.map f).flatten

/-- Decode exactly `n` consecutive elements. -/
def decListAux (dec : List Nat → Option (α × List Nat)) :
    Nat → List Nat → Option (List α × List Nat)
  | 0, bs => some ([], bs)
  | n + 1, bs =>
      match dec bs with
      | some (x, rest) =>
          match decListAux dec n rest with
          | some (xs, rest2) => some (x :: xs, rest2)
          | none => none
      | none => none

/-- Decode a length-prefixed sequence. -/
def decList (dec : List Nat → Option (α × List Nat)) (bs : List Nat) :
    Option (List α × List Nat) :=
  match decNat bs with
  | some (n, rest) => decListAux dec n rest
  | none => none

/-- Encoding of one metadata record: its four fields in order. -/
def encMetadata (m : Metadata) : List Nat :=
  encNat m.uploaded ++ encNat m.created ++ encNat m.modified ++ encNat m.size

/-- Decoding of one metadata record. -/
def decMetadata (bs : List Nat) : Option (Metadata × List Nat) :=
  match decNat bs with
  | some (uploaded, bs) =>
      match decNat bs with
      | some (created, bs) =>
          match decNat bs with
          | some (modified, bs) =>
              match decNat bs with
              | some (size, bs) => some (⟨uploaded, created, modified, size⟩, bs)
              | none => none
          | none => none
      | none => none
  | none => none

/-- Encoding of one archive entry: path, data map, metadata. -/
def encEntry (e : ArchPath × PrivateDataAccess × Metadata) : List Nat :=
  encList encNat e.1 ++ encList encNat e.2.1.datamap ++ encMetadata e.2.2

/-- Decoding of one archive entry. -/
def decEntry (bs : List Nat) : Option ((ArchPath × PrivateDataAccess × Metadata) × List Nat) :=
  match decList decNat bs with
  | some (path, bs) =>
      match decList decNat bs with
      | some (datamap, bs) =>
          match decMetadata bs with
          | some (meta, bs) => some ((path, ⟨datamap⟩, meta), bs)
          | none => none
      | none => none
  | none => none

/-- `PrivateArchive::into_bytes` (`archive.rs` lines 144–149).  The
`rmp_serde::to_vec` call cannot fail on this type, so the `Ok` payload
is returned directly. -/
def PrivateArchive.into_bytes (a : PrivateArchive) : List Nat :=
  encList encEntry a.map

/-- `PrivateArchive::from_bytes` (`archive.rs` lines 137–141);
`rmp_serde::from_slice` rejects byte strings that do not decode to
exactly one archive value. -/
def PrivateArchive.from_bytes (data : List Nat) : Except String PrivateArchive :=
  match decList decEntry data with
  | some (entries, []) => .ok ⟨entries⟩
  | some (_, _ :: _) => .error "trailing bytes after the archive value"
  | none => .error "malformed archive encoding"

/-- Varint round-trip: decoding what `encNat` wrote yields the number
back and leaves the rest of the buffer untouched. -/
theorem decNat_encNat (n : Nat) : ∀ rest, decNat (encNat n ++ rest) = some (n, rest) := by
  induction n using Nat.strong_induction_on with
  | _ n ih =>
    intro rest
    rw [encNat]
    by_cases h : n < 128
    · simp [h, decNat]
    · have hlt : n / 128 < n := Nat.div_lt_self (by omega) (by omega)
      have hbig : ¬ (n % 128 + 128 < 128) := by omega
      simp only [h, if_false, List.cons_append, decNat, hbig, if_false,
        ih (n / 128) hlt rest]
      have hmod : n % 128 + 128 * (n / 128) = n := by
        have := Nat.mod_add_div n 128
        omega
      simp [hmod]

/-- Round-trip for `decListAux`: decoding element by element undoes the
concatenated element encodings. -/
theorem decListAux_flatten (dec : List Nat → Option (α × List Nat))
    (f : α → List Nat) (l : List α)
    (hdec : ∀ x ∈ l, ∀ rest, dec (f x ++ rest) = some (x, rest)) :
    ∀ rest, decListAux dec l.length ((l.map f).flatten ++ rest) = some (l, rest) := by
  induction l with
  | nil => intro rest; simp [decListAux]
  | cons x xs ihl =>
      intro rest
      have hx := hdec x (by simp)
      have hxs : ∀ y ∈ xs, ∀ r, dec (f y ++ r) = some (y, r) := by
        intro y hy r; exact hdec y (by simp [hy]) r
      simp only [List.map_cons, List.flatten_cons, List.length_cons, List.append_assoc]
      simp [decListAux, hx ((xs.map f).flatten ++ rest), ihl hxs rest]

/-- Round-trip for length-prefixed sequences. -/
theorem decList_encList (dec : List Nat → Option (α × List Nat))
    (f : α → List Nat) (l : List α)
    (hdec : ∀ x ∈ l, ∀ rest, dec (f x ++ rest) = some (x, rest)) :
    ∀ rest, decList dec (encList f l ++ rest) = some (l, rest) := by
  intro rest
  simp only [encList, decList, List.append_assoc, decNat_encNat]
  exact decListAux_flatten dec f l hdec rest

/-- Round-trip for single varints seen as elements. -/
theorem decNat_elem : ∀ x : Nat, ∀ rest, decNat (encNat x ++ rest) = some (x, rest) :=
  decNat_encNat

/-- Round-trip for the metadata record. -/
theorem decMetadata_encMetadata (m : Metadata) :
    ∀ rest, decMetadata (encMetadata m ++ rest) = some (m, rest) := by
  intro rest
  simp [encMetadata, decMetadata, List.append_assoc, decNat_encNat]

/-- Round-trip for a single archive entry. -/
theorem decEntry_encEntry (e : ArchPath × PrivateDataAccess × Metadata) :
    ∀ rest, decEntry (encEntry e ++ rest) = some (e, rest) := by
  intro rest
  obtain ⟨p, ⟨d⟩, m⟩ := e
  simp [encEntry, decEntry, List.append_assoc,
    decList_encList decNat encNat _ (fun x _ => decNat_encNat x),
    decMetadata_encMetadata]

/-- A key absent from the key list looks up to nothing. -/
theorem mapLookup_eq_none_of_not_mem (k : ArchPath)
    (m : List (ArchPath × PrivateDataAccess × Metadata))
    (h : k ∉ m.map Prod.fst) : mapLookup k m = none := by
  induction m with
  | nil => rfl
  | cons e rest ih =>
      obtain ⟨k2, v⟩ := e
      simp only [List.map_cons, List.mem_cons] at h
      push_neg at h
      have hnp : ¬ (k2 = k) := fun hb => h.1 hb.symm
      simp [mapLookup, hnp, ih h.2]

/-- `mapRemove` misses exactly when `mapLookup` misses. -/
theorem mapRemove_eq_none_iff (k : ArchPath)
    (m : List (ArchPath × PrivateDataAccess × Metadata)) :
    mapRemove k m = none ↔ mapLookup k m = none := by
  induction m with
  | nil => simp [mapRemove, mapLookup]
  | cons e rest ih =>
      obtain ⟨k2, v⟩ := e
      by_cases hk : k2 = k
      · simp [mapRemove, mapLookup, hk]
      · simp only [mapRemove, mapLookup, hk, if_false]
        rw [← ih]
        cases mapRemove k rest <;> simp

/-- What `mapRemove` returns on a present key: the looked-up value and a
remainder that agrees with the original map on every other key — and, when
the keys are duplicate-free, no longer contains the removed key. -/
theorem mapRemove_of_lookup (k : ArchPath)
    (m : List (ArchPath × PrivateDataAccess × Metadata))
    (v : PrivateDataAccess × Metadata) (h : mapLookup k m = some v) :
    ∃ rest, mapRemove k m = some (v, rest) ∧
      (∀ p, p ≠ k → mapLookup p rest = mapLookup p m) ∧
      ((m.map Prod.fst).Nodup → mapLookup k rest = none) := by
  induction m with
  | nil => simp [mapLookup] at h
  | cons e tail ih =>
      obtain ⟨k2, v2⟩ := e
      by_cases hk : k2 = k
      · subst hk
        have hv : v2 = v := by simpa [mapLookup] using h
        subst hv
        refine ⟨tail, by simp [mapRemove], ?_, ?_⟩
        · intro p hp
          have hnp : ¬ (k2 = p) := fun hb => hp hb.symm
          simp [mapLookup, hnp]
        · intro hnodup
          simp only [List.map_cons, List.nodup_cons] at hnodup
          exact mapLookup_eq_none_of_not_mem _ _ hnodup.1
      · simp only [mapLookup, hk, if_false] at h
        obtain ⟨rest, hrem, hother, hnone⟩ := ih h
        refine ⟨(k2, v2) :: rest, ?_, ?_, ?_⟩
        · simp [mapRemove, hk, hrem]
        · intro p hp
          by_cases hp2 : k2 = p <;> simp [mapLookup, hp2, hother p hp]
        · intro hnodup
          simp only [List.map_cons, List.nodup_cons] at hnodup
          simp [mapLookup, hk, hnone hnodup.2]

/-- Looking up the just-inserted key yields the inserted value. -/
theorem mapLookup_mapInsert_self (k : ArchPath) (v : PrivateDataAccess × Metadata)
    (m : List (ArchPath × PrivateDataAccess × Metadata)) :
    mapLookup k (mapInsert k v m) = some v := by
  induction m with
  | nil => simp [mapInsert, mapLookup]
  | cons e rest ih =>
      obtain ⟨k2, v2⟩ := e
      by_cases hk : k2 = k <;> simp [mapInsert, mapLookup, hk, ih]

/-- Inserting one key leaves every other key's lookup unchanged. -/
theorem mapLookup_mapInsert_other (k : ArchPath) (v : PrivateDataAccess × Metadata)
    (m : List (ArchPath × PrivateDataAccess × Metadata)) (p : ArchPath)
    (h : p ≠ k) : mapLookup p (mapInsert k v m) = mapLookup p m := by
  have hkp : ¬ (k = p) := fun hb => h hb.symm
  induction m with
  | nil => simp [mapInsert, mapLookup, hkp]
  | cons e rest ih =>
      obtain ⟨k2, v2⟩ := e
      by_cases hk : k2 = k
      · subst hk
        simp [mapInsert, mapLookup, hkp]
      · by_cases hp2 : k2 = p <;> simp [mapInsert, mapLookup, hk, hp2, ih, hkp, h]

/-- C9: for every `PrivateArchive` `a`, serializing and then
deserializing round-trips — `PrivateArchive::from_bytes (a.into_bytes())`
succeeds and yields an archive equal to `a`. -/
theorem from_bytes_into_bytes (a : PrivateArchive) :
    PrivateArchive.from_bytes a.into_bytes = Except.ok a := by
  have h := decList_encList decEntry encEntry a.map (fun e _ => decEntry_encEntry e) []
  rw [List.append_nil] at h
  simp [PrivateArchive.from_bytes, PrivateArchive.into_bytes, h]

/-- C10: `rename_file` on an absent `old_path` fails with
`FileNotFound(old_path)` and (being given back the unchanged `self`)
leaves the map untouched; on a present `old_path` it succeeds, removes
the `old_path` entry (when the map, like a `HashMap`, has no duplicate
keys and the two paths differ), stores under `new_path` the same data
address with the same metadata except that `modified` becomes the current
time, and leaves every other key's entry unchanged. -/
theorem rename_file_correct (a : PrivateArchive) (old_path new_path : ArchPath)
    (now : Nat) :
    (mapLookup old_path a.map = none →
      a.rename_file old_path new_path now =
        .error (RenameError.FileNotFound old_path)) ∧
    (∀ addr meta, mapLookup old_path a.map = some (addr, meta) →
      ∃ a2, a.rename_file old_path new_path now = .ok a2 ∧
        mapLookup new_path a2.map = some (addr, { meta with modified := now }) ∧
        ((a.map.map Prod.fst).Nodup → old_path ≠ new_path →
          mapLookup old_path a2.map = none) ∧
        (∀ p, p ≠ old_path → p ≠ new_path →
          mapLookup p a2.map = mapLookup p a.map)) := by
  constructor
  · intro hnone
    have hrem : mapRemove old_path a.map = none :=
      (mapRemove_eq_none_iff old_path a.map).2 hnone
    simp [PrivateArchive.rename_file, hrem]
  · intro addr meta hsome
    obtain ⟨rest, hrem, hother, hnone⟩ :=
      mapRemove_of_lookup old_path a.map (addr, meta) hsome
    refine ⟨⟨mapInsert new_path (addr, { meta with modified := now }) rest⟩,
      by simp [PrivateArchive.rename_file, hrem], ?_, ?_, ?_⟩
    · exact mapLookup_mapInsert_self _ _ _
    · intro hnodup hne
      rw [mapLookup_mapInsert_other _ _ _ _ hne]
      exact hnone hnodup
    · intro p hpo hpn
      rw [mapLookup_mapInsert_other _ _ _ _ hpn]
      exact hother p hpo

/-- Witness for C10 at concrete inputs: renaming the present key `[1]` to
`[2]` moves its data address and stamps `modified`, and renaming the
absent key `[7]` fails with `FileNotFound`. -/
theorem rename_file_correct_witness :
    (∃ a2, PrivateArchive.rename_file ⟨[([1], ⟨[10]⟩, ⟨3, 4, 5, 6⟩)]⟩ [1] [2] 99 =
        .ok a2 ∧
      mapLookup [2] a2.map = some (⟨[10]⟩, ⟨3, 4, 99, 6⟩) ∧
      mapLookup [1] a2.map = none) ∧
    PrivateArchive.rename_file ⟨[([1], ⟨[10]⟩, ⟨3, 4, 5, 6⟩)]⟩ [7] [2] 99 =
      .error (RenameError.FileNotFound [7]) := by
  constructor
  · obtain ⟨a2, hok, hnew, hold, -⟩ :=
      (rename_file_correct ⟨[([1], ⟨[10]⟩, ⟨3, 4, 5, 6⟩)]⟩ [1] [2] 99).2
        ⟨[10]⟩ ⟨3, 4, 5, 6⟩ (by decide)
    exact ⟨a2, hok, hnew, hold (by decide) (by decide)⟩
  · exact (rename_file_correct ⟨[([1], ⟨[10]⟩, ⟨3, 4, 5, 6⟩)]⟩ [7] [2] 99).1
      (by decide)

end Archive

namespace AddServices

open SafeNet

/-- The bootstrap-peer / environment-variable merge leaves the node list
untouched. -/
theorem storeBootstrapPeersAndEnv_nodes (options : AddServiceOptions)
    (reg : NodeRegistry) :
    (storeBootstrapPeersAndEnv options reg).1.nodes = reg.nodes := by
  simp only [storeBootstrapPeersAndEnv]
  split_ifs <;> rfl

/-- The provisioning loop appends exactly the records of the node numbers
whose install succeeds, in order. -/
theorem addLoop_registry_nodes (options : AddServiceOptions)
    (ctl : ServiceControlModel) (f : String) (nums : List Nat) (st : LoopState) :
    (addLoop options ctl f st nums).registry.nodes =
      st.registry.nodes ++ (successNums ctl nums).map (mkNode options ctl f) := by
  induction nums generalizing st with
  | nil => simp [addLoop, successNums]
  | cons n rest ih =>
      cases hres : ctl.installResult n with
      | none =>
          rw [addLoop, ih]
          simp [addIteration, hres, successNums, List.filter_cons]
      | some e =>
          rw [addLoop, ih]
          simp [addIteration, hres, successNums, List.filter_cons]

/-- The provisioning loop records exactly one `(name, error)` pair per
failing install, in order. -/
theorem addLoop_failed_entries (options : AddServiceOptions)
    (ctl : ServiceControlModel) (f : String) (nums : List Nat) (st : LoopState) :
    (addLoop options ctl f st nums).failed = st.failed ++ failedEntries ctl nums := by
  induction nums generalizing st with
  | nil => simp [addLoop, failedEntries]
  | cons n rest ih =>
      cases hres : ctl.installResult n with
      | none =>
          rw [addLoop, ih]
          simp [addIteration, hres, failedEntries, List.filterMap_cons]
      | some e =>
          rw [addLoop, ih]
          simp [addIteration, hres, failedEntries, List.filterMap_cons]

/-- Effects already recorded survive the rest of the loop. -/
theorem addLoop_effects_mem (options : AddServiceOptions)
    (ctl : ServiceControlModel) (f : String) (nums : List Nat) (st : LoopState)
    (x : AddEffect) (hx : x ∈ st.effects) :
    x ∈ (addLoop options ctl f st nums).effects := by
  induction nums generalizing st with
  | nil => exact hx
  | cons n rest ih =>
      rw [addLoop]
      apply ih
      cases hres : ctl.installResult n <;> simp [addIteration, hres, hx]

/-- Every successful install inside the loop is followed by a registry
save whose snapshot already holds the new record. -/
theorem addLoop_saved (options : AddServiceOptions) (ctl : ServiceControlModel)
    (f : String) (nums : List Nat) (st : LoopState) (n : Nat)
    (hmem : n ∈ nums) (hok : ctl.installResult n = none) :
    ∃ rg, AddEffect.savedRegistry rg ∈ (addLoop options ctl f st nums).effects ∧
      mkNode options ctl f n ∈ rg.nodes := by
  induction nums generalizing st with
  | nil => cases hmem
  | cons m rest ih =>
      rw [addLoop]
      rcases List.mem_cons.mp hmem with heq | hmem2
      · subst heq
        refine ⟨{ st.registry with nodes := st.registry.nodes ++ [mkNode options ctl f n] },
          ?_, by simp⟩
        apply addLoop_effects_mem
        simp [addIteration, hok]
      · exact ih _ hmem2

/-- The node list `add` leaves behind, when the precondition checks pass
and the staging path has a file name: the original nodes followed by one
record per successful install. -/
theorem add_registry_nodes (options : AddServiceOptions) (reg : NodeRegistry)
    (ctl : ServiceControlModel) (fname : String)
    (hg1 : (options.genesis && someCountGtOne options.count) = false)
    (hg2 : (options.genesis && reg.nodes.any (·.genesis)) = false)
    (hp : (someCountGtOne options.count && options.node_port.isSome) = false)
    (hf : options.safenode_bin_path.fileName = some fname) :
    (add options reg ctl).registry.nodes =
      reg.nodes ++
        (successNums ctl (newNums reg options)).map (mkNode options ctl fname) := by
  simp only [add, hg1, hg2, hp, hf, Bool.false_eq_true, if_false]
  split
  · simp [addLoop_registry_nodes, storeBootstrapPeersAndEnv_nodes, newNums]
  · simp [addLoop_registry_nodes, storeBootstrapPeersAndEnv_nodes, newNums]

/-- C1 (amended): from a registry with `m` nodes, when the precondition
checks pass, `add(count = k)` leaves `m + k` records on full success —
each new record with status `Added` and number `m+1 .. m+k` — and
`m + k2` records with `k2 < k` when some installs fail; the newly added
records are named `safenode{i}` for exactly those `i` in `m+1 .. m+k`
whose install succeeded, in increasing order (not necessarily the
contiguous prefix of the new numbering, and named `safenode`, not
`antnode`). -/
theorem add_count_and_names (options : AddServiceOptions) (reg : NodeRegistry)
    (ctl : ServiceControlModel) (fname : String)
    (hg1 : (options.genesis && someCountGtOne options.count) = false)
    (hg2 : (options.genesis && reg.nodes.any (·.genesis)) = false)
    (hp : (someCountGtOne options.count && options.node_port.isSome) = false)
    (hf : options.safenode_bin_path.fileName = some fname) :
    (add options reg ctl).registry.nodes.length =
        reg.nodes.length + (successNums ctl (newNums reg options)).length ∧
    ((add options reg ctl).registry.nodes.drop reg.nodes.length).map
        (fun nd => nd.service_name) =
      (successNums ctl (newNums reg options)).map serviceName ∧
    ((add options reg ctl).registry.nodes.drop reg.nodes.length).map
        (fun nd => nd.number) =
      successNums ctl (newNums reg options) ∧
    (∀ nd ∈ (add options reg ctl).registry.nodes.drop reg.nodes.length,
        nd.status = ServiceStatus.Added) ∧
    ((∀ n ∈ newNums reg options, ctl.installResult n = none) →
      (add options reg ctl).registry.nodes.length =
          reg.nodes.length + options.count.getD 1 ∧
      ((add options reg ctl).registry.nodes.drop reg.nodes.length).map
          (fun nd => nd.number) =
        newNums reg options) ∧
    ((∃ n ∈ newNums reg options, (ctl.installResult n).isSome) →
      (successNums ctl (newNums reg options)).length < options.count.getD 1) := by
  have hshape := add_registry_nodes options reg ctl fname hg1 hg2 hp hf
  have hdrop : (add options reg ctl).registry.nodes.drop reg.nodes.length =
      (successNums ctl (newNums reg options)).map (mkNode options ctl fname) := by
    rw [hshape, List.drop_left]
  refine ⟨?_, ?_, ?_, ?_, ?_, ?_⟩
  · rw [hshape]; simp
  · rw [hdrop]; simp [List.map_map, Function.comp_def, mkNode]
  · rw [hdrop]; simp [List.map_map, Function.comp_def, mkNode, List.map_id']
  · intro nd hnd
    rw [hdrop] at hnd
    obtain ⟨n, -, rfl⟩ := List.mem_map.mp hnd
    simp [mkNode]
  · intro hall
    have hsucc : successNums ctl (newNums reg options) = newNums reg options :=
      List.filter_eq_self.mpr (fun n hn => by simp [hall n hn])
    constructor
    · rw [hshape, hsucc]; simp [newNums]
    · rw [hdrop, hsucc]; simp [List.map_map, Function.comp_def, mkNode, List.map_id']
  · rintro ⟨n, hn, hsome⟩
    have hlt : (successNums ctl (newNums reg options)).length <
        (newNums reg options).length := by
      apply List.length_filter_lt_length_iff_exists.mpr
      refine ⟨n, hn, ?_⟩
      cases hres : ctl.installResult n with
      | none => rw [hres] at hsome; simp at hsome
      | some e => simp [hres]
    simpa [newNums] using hlt

/-- Witness for C1 at concrete inputs: adding one node (the default
count) to the empty registry with an always-succeeding controller yields
zero-plus-one records. -/
theorem add_count_and_names_witness :
    (add baseOptions emptyRegistry okCtl).registry.nodes.length =
      emptyRegistry.nodes.length +
        (successNums okCtl (newNums emptyRegistry baseOptions)).length :=
  (add_count_and_names baseOptions emptyRegistry okCtl "safenode"
    (by decide) (by decide) (by decide) rfl).1

/-- Counterexample for C1 as stated: with `count = 2` on the empty
registry and the install for node number 1 failing, one record is added
(`k2 = 1 < 2`) but it is named `safenode2` — not `antnode1`, the
contiguous-prefix name the claim predicts. -/
theorem add_count_and_names_cex :
    (failFirstCtl.installResult 1).isSome = true ∧
    (add countTwoOptions emptyRegistry failFirstCtl).registry.nodes.length = 0 + 1 ∧
    (add countTwoOptions emptyRegistry failFirstCtl).registry.nodes.map
        (fun nd => nd.service_name) = ["safenode2"] ∧
    (add countTwoOptions emptyRegistry failFirstCtl).registry.nodes.map
        (fun nd => nd.service_name) ≠ ["antnode1"] := by
  refine ⟨by decide, ?_, ?_, ?_⟩
  · decide
  · decide
  · decide

/-- C2 (amended): when `genesis` is set, a count above 1 fails with "A
genesis node can only be added as a single node", and an existing genesis
node — with the count check not firing first — fails with "A genesis node
already exists"; in both cases the error is returned before any mutation,
so the registry is unchanged and no filesystem or controller side effect
occurs. -/
theorem add_genesis_guard :
    (∀ (options : AddServiceOptions) (reg : NodeRegistry) (ctl : ServiceControlModel),
      options.genesis = true → someCountGtOne options.count = true →
        (add options reg ctl).result =
            .error "A genesis node can only be added as a single node" ∧
          (add options reg ctl).registry = reg ∧
          (add options reg ctl).effects = []) ∧
    (∀ (options : AddServiceOptions) (reg : NodeRegistry) (ctl : ServiceControlModel),
      options.genesis = true → someCountGtOne options.count = false →
        reg.nodes.any (·.genesis) = true →
        (add options reg ctl).result = .error "A genesis node already exists" ∧
          (add options reg ctl).registry = reg ∧
          (add options reg ctl).effects = []) := by
  constructor
  · intro options reg ctl hgen hcnt
    simp [add, hgen, hcnt]
  · intro options reg ctl hgen hcnt hex
    simp [add, hgen, hcnt, hex]

/-- Witness for C2 at concrete inputs: a genesis request with `count = 2`
fails with the single-node message, and a genesis request against a
registry that already has a genesis node fails with the already-exists
message; the registry and effect trace are untouched in both cases. -/
theorem add_genesis_guard_witness :
    ((add genesisCountOptions emptyRegistry okCtl).result =
        .error "A genesis node can only be added as a single node" ∧
      (add genesisCountOptions emptyRegistry okCtl).registry = emptyRegistry ∧
      (add genesisCountOptions emptyRegistry okCtl).effects = []) ∧
    ((add genesisTrueOptions genesisRegistry okCtl).result =
        .error "A genesis node already exists" ∧
      (add genesisTrueOptions genesisRegistry okCtl).registry = genesisRegistry ∧
      (add genesisTrueOptions genesisRegistry okCtl).effects = []) :=
  ⟨add_genesis_guard.1 genesisCountOptions emptyRegistry okCtl (by decide) (by decide),
   add_genesis_guard.2 genesisTrueOptions genesisRegistry okCtl (by decide) (by decide)
     (by decide)⟩

/-- Counterexample for C2 as stated: when the registry already holds a
genesis node but `count = 2` is also requested, the call fails with the
single-node message, not "A genesis node already exists" as the claim
predicts for any registry that already contains a genesis node. -/
theorem add_genesis_guard_cex :
    genesisCountOptions.genesis = true ∧
    genesisRegistry.nodes.any (·.genesis) = true ∧
    (add genesisCountOptions genesisRegistry okCtl).result =
      .error "A genesis node can only be added as a single node" ∧
    (add genesisCountOptions genesisRegistry okCtl).result ≠
      .error "A genesis node already exists" := by
  refine ⟨by decide, by decide, rfl, ?_⟩
  intro heq
  rw [show (add genesisCountOptions genesisRegistry okCtl).result =
      Except.error "A genesis node can only be added as a single node" from rfl] at heq
  exact absurd (Except.error.inj heq) (by decide)

/-- Any result `add` can produce with the custom-port message requires a
count above 1: in every other branch the result is `Ok` or a different
error literal. -/
theorem add_custom_port_error_needs_count (options : AddServiceOptions)
    (reg : NodeRegistry) (ctl : ServiceControlModel)
    (h : (add options reg ctl).result =
      .error "Custom node port can only be used when adding a single service") :
    someCountGtOne options.count = true := by
  by_cases hc : someCountGtOne options.count = true
  · exact hc
  · exfalso
    rw [Bool.not_eq_true] at hc
    simp only [add, hc, Bool.and_false, Bool.false_and, Bool.false_eq_true,
      if_false] at h
    by_cases hg : (options.genesis && reg.nodes.any (·.genesis)) = true
    · rw [hg] at h
      simp at h
    · rw [Bool.not_eq_true] at hg
      rw [hg] at h
      simp only [Bool.false_eq_true, if_false] at h
      cases hfn : options.safenode_bin_path.fileName with
      | none => rw [hfn] at h; simp at h
      | some f =>
          rw [hfn] at h
          simp only [] at h
          split at h <;> simp at h

/-- C3 (amended): with `node_port` set and a count above 1 — provided the
genesis checks, which run first, do not fire — `add` fails with "Custom
node port can only be used when adding a single service", with the
registry unchanged and no side effects; with `node_port` set and the
count 1 or absent, this error is never returned. -/
theorem add_custom_port_guard :
    (∀ (options : AddServiceOptions) (reg : NodeRegistry) (ctl : ServiceControlModel),
      (options.genesis && someCountGtOne options.count) = false →
      (options.genesis && reg.nodes.any (·.genesis)) = false →
      someCountGtOne options.count = true → options.node_port.isSome = true →
      (add options reg ctl).result =
          .error "Custom node port can only be used when adding a single service" ∧
        (add options reg ctl).registry = reg ∧
        (add options reg ctl).effects = []) ∧
    (∀ (options : AddServiceOptions) (reg : NodeRegistry) (ctl : ServiceControlModel),
      options.node_port.isSome = true → someCountGtOne options.count = false →
      (add options reg ctl).result ≠
        .error "Custom node port can only be used when adding a single service") := by
  constructor
  · intro options reg ctl hg1 hg2 hcnt hport
    have hgen : options.genesis = false := by
      rw [hcnt] at hg1
      simpa using hg1
    simp [add, hgen, hcnt, hport]
  · intro options reg ctl hport hcnt habs
    have := add_custom_port_error_needs_count options reg ctl habs
    rw [hcnt] at this
    cases this

/-- Witness for C3 at concrete inputs: `count = 3` with `node_port =
12000` fails with the custom-port message and no side effects, while
`node_port = 12000` with count absent never produces that message. -/
theorem add_custom_port_guard_witness :
    ((add portCountOptions emptyRegistry okCtl).result =
        .error "Custom node port can only be used when adding a single service" ∧
      (add portCountOptions emptyRegistry okCtl).registry = emptyRegistry ∧
      (add portCountOptions emptyRegistry okCtl).effects = []) ∧
    (add portOneOptions emptyRegistry okCtl).result ≠
      .error "Custom node port can only be used when adding a single service" :=
  ⟨add_custom_port_guard.1 portCountOptions emptyRegistry okCtl
      (by decide) (by decide) (by decide) (by decide),
   add_custom_port_guard.2 portOneOptions emptyRegistry okCtl (by decide) (by decide)⟩

/-- Counterexample for C3 as stated: with `node_port` set, a count above
1 *and* `genesis` set, the genesis count check fires first, so the call
fails with the genesis message, not the custom-port message the claim
predicts for every call with `node_port` set and count above 1. -/
theorem add_custom_port_guard_cex :
    genesisPortOptions.node_port.isSome = true ∧
    someCountGtOne genesisPortOptions.count = true ∧
    (add genesisPortOptions emptyRegistry okCtl).result =
      .error "A genesis node can only be added as a single node" ∧
    (add genesisPortOptions emptyRegistry okCtl).result ≠
      .error "Custom node port can only be used when adding a single service" := by
  refine ⟨by decide, by decide, rfl, ?_⟩
  intro heq
  rw [show (add genesisPortOptions emptyRegistry okCtl).result =
      Except.error "A genesis node can only be added as a single node" from rfl] at heq
  exact absurd (Except.error.inj heq) (by decide)

/-- Whatever `add` does, it only ever appends records, and every appended
record carries the `safenode{number}` name and `Added` status. -/
theorem add_new_nodes_shape (options : AddServiceOptions) (reg : NodeRegistry)
    (ctl : ServiceControlModel) :
    ∃ newNodes, (add options reg ctl).registry.nodes = reg.nodes ++ newNodes ∧
      ∀ nd ∈ newNodes, nd.service_name = serviceName nd.number ∧
        nd.status = ServiceStatus.Added := by
  by_cases h1 : (options.genesis && someCountGtOne options.count) = true
  · exact ⟨[], by simp [add, h1], by simp⟩
  · rw [Bool.not_eq_true] at h1
    by_cases h2 : (options.genesis && reg.nodes.any (·.genesis)) = true
    · exact ⟨[], by simp [add, h1, h2], by simp⟩
    · rw [Bool.not_eq_true] at h2
      by_cases h3 : (someCountGtOne options.count && options.node_port.isSome) = true
      · exact ⟨[], by simp [add, h1, h2, h3], by simp⟩
      · rw [Bool.not_eq_true] at h3
        cases hfn : options.safenode_bin_path.fileName with
        | none => exact ⟨[], by simp [add, h1, h2, h3, hfn], by simp⟩
        | some f =>
            refine ⟨(successNums ctl (newNums reg options)).map (mkNode options ctl f),
              add_registry_nodes options reg ctl f h1 h2 h3 hfn, ?_⟩
            intro nd hnd
            obtain ⟨n, -, rfl⟩ := List.mem_map.mp hnd
            exact ⟨rfl, rfl⟩

/-- C4 (amended): every node record created by `add` has `service_name`
equal to `"safenode"` followed by its `number` field (the code derives
`safenode{n}`, not `antnode{n}`), and the relation holds for every node
in the registry after any sequence of `add` calls whose starting registry
satisfies it. -/
theorem add_service_name_matches_number :
    (∀ (options : AddServiceOptions) (reg : NodeRegistry) (ctl : ServiceControlModel),
      ∀ nd ∈ (add options reg ctl).registry.nodes.drop reg.nodes.length,
        nd.service_name = "safenode" ++ toString nd.number) ∧
    (∀ (calls : List (AddServiceOptions × ServiceControlModel)) (reg : NodeRegistry),
      (∀ nd ∈ reg.nodes, nd.service_name = "safenode" ++ toString nd.number) →
      ∀ nd ∈ (addSeq calls reg).nodes,
        nd.service_name = "safenode" ++ toString nd.number) := by
  have hstep : ∀ (options : AddServiceOptions) (reg : NodeRegistry)
      (ctl : ServiceControlModel), ∀ nd ∈ (add options reg ctl).registry.nodes,
      nd ∈ reg.nodes ∨ nd.service_name = "safenode" ++ toString nd.number := by
    intro options reg ctl nd hnd
    obtain ⟨newNodes, heq, hprop⟩ := add_new_nodes_shape options reg ctl
    rw [heq] at hnd
    rcases List.mem_append.mp hnd with h | h
    · exact Or.inl h
    · exact Or.inr ((hprop nd h).1)
  constructor
  · intro options reg ctl nd hnd
    obtain ⟨newNodes, heq, hprop⟩ := add_new_nodes_shape options reg ctl
    rw [heq, List.drop_left] at hnd
    exact (hprop nd hnd).1
  · intro calls
    induction calls with
    | nil => intro reg hinv nd hnd; exact hinv nd hnd
    | cons oc rest ih =>
        intro reg hinv nd hnd
        obtain ⟨o, c⟩ := oc
        rw [addSeq] at hnd
        refine ih (add o reg c).registry ?_ nd hnd
        intro nd2 hnd2
        rcases hstep o reg c nd2 hnd2 with h | h
        · exact hinv nd2 h
        · exact h

/-- Witness for C4 at concrete inputs: after one `add` call on the empty
registry, every registry node is named after its number. -/
theorem add_service_name_matches_number_witness :
    ((addSeq [(baseOptions, okCtl)] emptyRegistry).nodes.all
      (fun nd => nd.service_name == "safenode" ++ toString nd.number)) = true := by
  rw [List.all_eq_true]
  intro nd hnd
  have h := add_service_name_matches_number.2 [(baseOptions, okCtl)] emptyRegistry
    (by simp [emptyRegistry]) nd hnd
  simp [h]

/-- Counterexample for C4 as stated: the record created by a plain `add`
on the empty registry is named `safenode1`, so it is not true that every
created record is named `antnode{number}`. -/
theorem add_service_name_matches_number_cex :
    (add baseOptions emptyRegistry okCtl).registry.nodes.map
        (fun nd => nd.service_name) = ["safenode1"] ∧
    ¬ (∀ nd ∈ (add baseOptions emptyRegistry okCtl).registry.nodes,
        nd.service_name = "antnode" ++ toString nd.number) := by
  exact ⟨by decide, by decide⟩

/-- Every successful install performed by `add` is followed by a registry
save whose snapshot already holds the new record. -/
theorem add_effects_saved (options : AddServiceOptions) (reg : NodeRegistry)
    (ctl : ServiceControlModel) (fname : String)
    (hg1 : (options.genesis && someCountGtOne options.count) = false)
    (hg2 : (options.genesis && reg.nodes.any (·.genesis)) = false)
    (hp : (someCountGtOne options.count && options.node_port.isSome) = false)
    (hf : options.safenode_bin_path.fileName = some fname)
    (n : Nat) (hn : n ∈ newNums reg options)
    (hok : ctl.installResult n = none) :
    ∃ rg, AddEffect.savedRegistry rg ∈ (add options reg ctl).effects ∧
      mkNode options ctl fname n ∈ rg.nodes := by
  have hn2 : n ∈ List.range'
      ((storeBootstrapPeersAndEnv options reg).1.nodes.length + 1)
      (options.count.getD 1) := by
    rw [storeBootstrapPeersAndEnv_nodes]
    simpa [newNums] using hn
  simp only [add, hg1, hg2, hp, hf, Bool.false_eq_true, if_false]
  split
  · obtain ⟨rg, hmem, hnd⟩ := addLoop_saved options ctl fname _ _ n hn2 hok
    exact ⟨rg, List.mem_append_left _ hmem, hnd⟩
  · obtain ⟨rg, hmem, hnd⟩ := addLoop_saved options ctl fname _ _ n hn2 hok
    exact ⟨rg, List.mem_append_left _ hmem, hnd⟩

/-- The aggregate result of `add` is the failure error exactly when the
failure list is non-empty. -/
theorem add_result_by_failed (options : AddServiceOptions) (reg : NodeRegistry)
    (ctl : ServiceControlModel) (fname : String)
    (hg1 : (options.genesis && someCountGtOne options.count) = false)
    (hg2 : (options.genesis && reg.nodes.any (·.genesis)) = false)
    (hp : (someCountGtOne options.count && options.node_port.isSome) = false)
    (hf : options.safenode_bin_path.fileName = some fname) :
    ((add options reg ctl).failed ≠ [] →
      (add options reg ctl).result = .error "Failed to add one or more services") ∧
    ((add options reg ctl).failed = [] → (add options reg ctl).result = .ok ()) := by
  simp only [add, hg1, hg2, hp, hf, Bool.false_eq_true, if_false]
  split
  · constructor
    · intro; rfl
    · intro habs
      simp_all [List.isEmpty_iff]
  · constructor
    · intro hne
      simp_all [List.isEmpty_iff]
    · intro; rfl

/-- C5: when the precondition checks pass and the loop runs, `add`
records one `(name, error)` pair per failing install and keeps going;
it returns the aggregate "Failed to add one or more services" error
exactly when some install failed, while every service whose install
succeeded is still appended to the registry and saved; with no failing
install it succeeds. -/
theorem add_aggregate_error (options : AddServiceOptions) (reg : NodeRegistry)
    (ctl : ServiceControlModel) (fname : String)
    (hg1 : (options.genesis && someCountGtOne options.count) = false)
    (hg2 : (options.genesis && reg.nodes.any (·.genesis)) = false)
    (hp : (someCountGtOne options.count && options.node_port.isSome) = false)
    (hf : options.safenode_bin_path.fileName = some fname) :
    (add options reg ctl).failed = failedEntries ctl (newNums reg options) ∧
    ((∃ n ∈ newNums reg options, (ctl.installResult n).isSome) →
      (add options reg ctl).result = .error "Failed to add one or more services") ∧
    (∀ n ∈ newNums reg options, ctl.installResult n = none →
      mkNode options ctl fname n ∈ (add options reg ctl).registry.nodes ∧
      ∃ rg, AddEffect.savedRegistry rg ∈ (add options reg ctl).effects ∧
        mkNode options ctl fname n ∈ rg.nodes) ∧
    ((∀ n ∈ newNums reg options, ctl.installResult n = none) →
      (add options reg ctl).result = .ok ()) := by
  have hfailed : (add options reg ctl).failed =
      failedEntries ctl (newNums reg options) := by
    simp only [add, hg1, hg2, hp, hf, Bool.false_eq_true, if_false]
    split
    · simp [addLoop_failed_entries, storeBootstrapPeersAndEnv_nodes, newNums]
    · simp [addLoop_failed_entries, storeBootstrapPeersAndEnv_nodes, newNums]
  have hres := add_result_by_failed options reg ctl fname hg1 hg2 hp hf
  refine ⟨hfailed, ?_, ?_, ?_⟩
  · rintro ⟨n, hn, hsome⟩
    obtain ⟨e, he⟩ := Option.isSome_iff_exists.mp hsome
    have hmem : (serviceName n, e) ∈ failedEntries ctl (newNums reg options) :=
      List.mem_filterMap.mpr ⟨n, hn, by simp [he]⟩
    exact hres.1 (by rw [hfailed]; exact List.ne_nil_of_mem hmem)
  · intro n hn hok
    constructor
    · rw [add_registry_nodes options reg ctl fname hg1 hg2 hp hf]
      refine List.mem_append_right _ (List.mem_map.mpr ⟨n, ?_, rfl⟩)
      exact List.mem_filter.mpr ⟨hn, by simp [hok]⟩
    · exact add_effects_saved options reg ctl fname hg1 hg2 hp hf n hn hok
  · intro hall
    apply hres.2
    rw [hfailed]
    apply List.filterMap_eq_nil_iff.mpr
    intro n hn
    simp [hall n hn]

/-- Witness for C5 at concrete inputs: with `count = 2` and the install
for node number 1 failing, `add` returns the aggregate error while the
succeeding node number 2 is appended and saved. -/
theorem add_aggregate_error_witness :
    (add countTwoOptions emptyRegistry failFirstCtl).result =
      .error "Failed to add one or more services" ∧
    mkNode countTwoOptions failFirstCtl "safenode" 2 ∈
      (add countTwoOptions emptyRegistry failFirstCtl).registry.nodes := by
  have h := add_aggregate_error countTwoOptions emptyRegistry failFirstCtl "safenode"
    (by decide) (by decide) (by decide) rfl
  exact ⟨h.2.1 ⟨1, by decide, by decide⟩,
    (h.2.2.1 2 (by decide) (by decide)).1⟩

end AddServices

namespace Launchpad

open SafeNet

/-- C8: after `load_node_registry_and_update_states`, `node_services`
holds exactly the registry's nodes whose status is not `Removed`, in
registry order (a sublist of the registry's node list). -/
theorem load_filters_removed (reg : NodeRegistry) (s : Status) :
    List.Sublist (loadNodeRegistryAndUpdateStates reg s).node_services reg.nodes ∧
    (∀ nd, nd ∈ (loadNodeRegistryAndUpdateStates reg s).node_services ↔
      nd ∈ reg.nodes ∧ nd.status ≠ ServiceStatus.Removed) ∧
    (loadNodeRegistryAndUpdateStates reg s).node_services =
      reg.nodes.filter (fun node => node.status != ServiceStatus.Removed) := by
  refine ⟨?_, ?_, rfl⟩
  · exact List.filter_sublist reg.nodes
  · intro nd
    simp [loadNodeRegistryAndUpdateStates, List.mem_filter]

/-- Any `MaintainNodes` task `update` ever sends carries
`run_nat_detection = should_we_run_nat_detection`, so it is `true` only
when the NAT status is undetermined and the failure counter is below the
bound (and the connection mode is `Automatic`). -/
theorem update_maintain_run_nat (s : Status) (env : Env) (a : Action)
    (args : MaintainNodesArgs)
    (hmem : NodeManagementTask.MaintainNodes args ∈ (update s env a).sent)
    (htrue : args.run_nat_detection = true) :
    s.is_nat_status_determined = false ∧
      s.error_while_running_nat_detection <
        MAX_ERRORS_WHILE_RUNNING_NAT_DETECTION := by
  cases a with
  | Tick => simp [update] at hmem
  | SwitchScene sc => cases sc <;> simp [update] at hmem
  | StoreNodesToStart c =>
      simp only [update] at hmem
      split at hmem <;> simp at hmem
  | StoreRewardsAddress addr =>
      simp only [update] at hmem
      split at hmem <;> simp at hmem
  | StoreStorageDrive m n => simp [update] at hmem
  | StoreConnectionMode cm => simp [update] at hmem
  | StorePortRange f t => simp [update] at hmem
  | SetUpnpSupport => simp [update] at hmem
  | SwitchInputMode m => simp [update] at hmem
  | OtherAction => simp [update] at hmem
  | OptionsActionsA oa =>
      cases oa with
      | UpdateNodes =>
          simp only [update] at hmem
          split at hmem <;> simp at hmem
      | ResetNodes =>
          simp only [update] at hmem
          split at hmem <;> simp at hmem
      | OtherOption => simp [update] at hmem
  | StatusActionsA sa =>
      cases sa with
      | NodesStatsObtained => simp [update] at hmem
      | StartNodesCompleted => simp [update] at hmem
      | StopNodesCompleted => simp [update] at hmem
      | UpdateNodesCompleted => simp [update] at hmem
      | ResetNodesCompleted b => cases b <;> simp [update] at hmem
      | SuccessfullyDetectedNatStatus => simp [update] at hmem
      | ErrorWhileRunningNatDetection => simp [update] at hmem
      | ErrorLoadingNodeRegistry e => simp [update] at hmem
      | ErrorGettingNodeRegistryPath e => simp [update] at hmem
      | ErrorScalingUpNodes e => simp [update] at hmem
      | ErrorStoppingNodes e => simp [update] at hmem
      | ErrorUpdatingNodes e => simp [update] at hmem
      | ErrorResettingNodes e => simp [update] at hmem
      | TriggerManageNodes => simp [update] at hmem
      | PreviousTableItem => simp [update] at hmem
      | NextTableItem => simp [update] at hmem
      | TriggerRewardsAddress =>
          simp only [update] at hmem
          split at hmem <;> simp at hmem
      | TriggerNodeLogs => simp [update] at hmem
      | StopNodes =>
          simp only [update] at hmem
          split at hmem <;> simp at hmem
      | StartNodes =>
          simp only [update] at hmem
          split at hmem
          · simp at hmem
          · split at hmem
            · simp at hmem
            · split at hmem
              · simp at hmem
              · simp only [List.mem_singleton,
                  NodeManagementTask.MaintainNodes.injEq] at hmem
                subst hmem
                simp only [shouldWeRunNatDetection] at htrue
                simp only [Bool.and_eq_true, beq_iff_eq, Bool.not_eq_true',
                  decide_eq_true_eq] at htrue
                exact ⟨htrue.1.2, htrue.2⟩

/-- No handler ever decreases the NAT-detection failure counter. -/
theorem update_error_monotone (s : Status) (env : Env) (a : Action) :
    s.error_while_running_nat_detection ≤
      (update s env a).state.error_while_running_nat_detection := by
  cases a <;>
    (simp only [update]
     repeat' split
     all_goals simp [loadNodeRegistryAndUpdateStates])

/-- C7: a `MaintainNodes` task with `run_nat_detection = true` is sent
only while the NAT status is undetermined and the failure counter is
strictly below 3; each `ErrorWhileRunningNatDetection` event increments
the counter by exactly 1; no handler decreases it; hence once the counter
reaches 3, every `MaintainNodes` task sent carries
`run_nat_detection = false`. -/
theorem nat_detection_policy :
    (∀ (s : Status) (env : Env) (a : Action) (args : MaintainNodesArgs),
      NodeManagementTask.MaintainNodes args ∈ (update s env a).sent →
      args.run_nat_detection = true →
      s.is_nat_status_determined = false ∧
        s.error_while_running_nat_detection < 3) ∧
    (∀ (s : Status) (env : Env),
      (update s env
          (.StatusActionsA .ErrorWhileRunningNatDetection)).state.error_while_running_nat_detection =
        s.error_while_running_nat_detection + 1) ∧
    (∀ (s : Status) (env : Env) (a : Action),
      s.error_while_running_nat_detection ≤
        (update s env a).state.error_while_running_nat_detection) ∧
    (∀ (s : Status) (env : Env) (a : Action) (args : MaintainNodesArgs),
      3 ≤ s.error_while_running_nat_detection →
      NodeManagementTask.MaintainNodes args ∈ (update s env a).sent →
      args.run_nat_detection = false) := by
  refine ⟨?_, ?_, ?_, ?_⟩
  · intro s env a args hmem htrue
    exact update_maintain_run_nat s env a args hmem htrue
  · intro s env
    simp [update]
  · intro s env a
    exact update_error_monotone s env a
  · intro s env a args h3 hmem
    by_contra hne
    rw [Bool.not_eq_false] at hne
    have h := update_maintain_run_nat s env a args hmem hne
    have h2 := h.2
    simp only [MAX_ERRORS_WHILE_RUNNING_NAT_DETECTION] at h2
    omega

/-- Witness for C7 at concrete inputs: `baseStatus` does send a
`MaintainNodes` task with `run_nat_detection = true` on `StartNodes`, and
the theorem then yields its NAT state; the failure counter increments
from 0 to 1 on `ErrorWhileRunningNatDetection`. -/
theorem nat_detection_policy_witness :
    (baseStatus.is_nat_status_determined = false ∧
      baseStatus.error_while_running_nat_detection < 3) ∧
    (update baseStatus baseEnv
        (.StatusActionsA .ErrorWhileRunningNatDetection)).state.error_while_running_nat_detection =
      baseStatus.error_while_running_nat_detection + 1 := by
  constructor
  · obtain ⟨args, hmem, htrue⟩ : ∃ args,
        NodeManagementTask.MaintainNodes args ∈
          (update baseStatus baseEnv (.StatusActionsA .StartNodes)).sent ∧
        args.run_nat_detection = true :=
      ⟨_, List.mem_singleton.mpr rfl, rfl⟩
    exact nat_detection_policy.1 baseStatus baseEnv
      (.StatusActionsA .StartNodes) args hmem htrue
  · exact nat_detection_policy.2.1 baseStatus baseEnv

/-- C6 (amended): the `StartNodes`, `StopNodes`, `UpdateNodes` and
`ResetNodes` handlers send no task while the advisory lock is held; when
one of them does send its task, the outcome state holds the corresponding
lock value (set before enqueueing); and each completion event clears the
lock.  (The `Store*` settings handlers, by contrast, enqueue `ResetNodes`
without consulting the lock — see the counterexample.) -/
theorem lock_gates_tasks :
    (∀ (s : Status) (env : Env), s.lock_registry.isSome = true →
      (update s env (.StatusActionsA .StartNodes)).sent = [] ∧
      (update s env (.StatusActionsA .StopNodes)).sent = [] ∧
      (update s env (.OptionsActionsA .UpdateNodes)).sent = [] ∧
      (update s env (.OptionsActionsA .ResetNodes)).sent = []) ∧
    (∀ (s : Status) (env : Env),
      ((update s env (.StatusActionsA .StartNodes)).sent ≠ [] →
        (update s env (.StatusActionsA .StartNodes)).state.lock_registry =
          some .StartingNodes) ∧
      ((update s env (.StatusActionsA .StopNodes)).sent ≠ [] →
        (update s env (.StatusActionsA .StopNodes)).state.lock_registry =
          some .StoppingNodes) ∧
      ((update s env (.OptionsActionsA .UpdateNodes)).sent ≠ [] →
        (update s env (.OptionsActionsA .UpdateNodes)).state.lock_registry =
          some .UpdatingNodes) ∧
      ((update s env (.OptionsActionsA .ResetNodes)).sent ≠ [] →
        (update s env (.OptionsActionsA .ResetNodes)).state.lock_registry =
          some .ResettingNodes)) ∧
    (∀ (s : Status) (env : Env) (b : Bool),
      (update s env (.StatusActionsA .StartNodesCompleted)).state.lock_registry = none ∧
      (update s env (.StatusActionsA .StopNodesCompleted)).state.lock_registry = none ∧
      (update s env (.StatusActionsA .UpdateNodesCompleted)).state.lock_registry = none ∧
      (update s env
          (.StatusActionsA (.ResetNodesCompleted b))).state.lock_registry = none) := by
  refine ⟨?_, ?_, ?_⟩
  · intro s env hsome
    refine ⟨?_, ?_, ?_, ?_⟩ <;>
      (simp only [update]
       repeat' split
       all_goals simp_all [loadNodeRegistryAndUpdateStates])
  · intro s env
    refine ⟨?_, ?_, ?_, ?_⟩ <;>
      (simp only [update]
       repeat' split
       all_goals simp_all [loadNodeRegistryAndUpdateStates])
  · intro s env b
    refine ⟨?_, ?_, ?_, ?_⟩ <;>
      (simp only [update]
       repeat' split
       all_goals simp_all [loadNodeRegistryAndUpdateStates])

/-- Witness for C6 at concrete inputs: with the lock held, `StartNodes`
sends nothing; with the lock free, `StartNodesCompleted` leaves the lock
cleared. -/
theorem lock_gates_tasks_witness :
    (update lockedStatus baseEnv (.StatusActionsA .StartNodes)).sent = [] ∧
    (update baseStatus baseEnv
        (.StatusActionsA .StartNodesCompleted)).state.lock_registry = none :=
  ⟨(lock_gates_tasks.1 lockedStatus baseEnv (by decide)).1,
   (lock_gates_tasks.2.2 baseStatus baseEnv false).1⟩

/-- Counterexample for C6 as stated: while the lock is held, the
`StoreConnectionMode` settings handler still enqueues a `ResetNodes`
task — the presentation layer does enqueue a registry-mutating task with
the lock set. -/
theorem lock_gates_tasks_cex :
    lockedStatus.lock_registry ≠ none ∧
    (update lockedStatus baseEnv
        (.StoreConnectionMode ConnectionMode.CustomPorts)).sent =
      [NodeManagementTask.ResetNodes false] := by
  exact ⟨by decide, rfl⟩

end Launchpad
